import Mathlib

set_option maxHeartbeats 1000000

/-!
Verification development for the KDPAutomation repository.

The definitions below are a shallow embedding of the Python sources:
pixel coordinates are `ℤ`, real-valued timings and multipliers are `ℚ`,
counters are `ℕ`.  Calls to the `random` module are modelled either by a
seed parameter fed through the documented formula of the primitive
(`random.randint`) or by an explicit draw parameter quantified in the
theorems (`random.gauss`, `random.uniform`, the per-call multipliers).
-/

/-- Pixel point with integer coordinates, from `utils/coordinate_helper.py`,
dataclass `Point` (`__post_init__` coerces both fields to `int`). -/
structure Point where
  x : ℤ
  y : ℤ
deriving DecidableEq, Repr

/-- Squared Euclidean distance between two points.  `Point.distance_to`
returns `math.sqrt` of this quantity; the embedding keeps the square so all
arithmetic stays exact, and truncated expressions of the form
`int(distance / k)` are recovered as `Nat.sqrt sqDist / k`. -/
def Point.sqDist (p q : Point) : ℕ := ((p.x - q.x) ^ 2 + (p.y - q.y) ^ 2).toNat

/-- Rectangle record from `utils/coordinate_helper.py`, dataclass
`Rectangle` (top-left `(x1, y1)`, bottom-right `(x2, y2)`). -/
structure Rectangle where
  x1 : ℤ
  y1 : ℤ
  x2 : ℤ
  y2 : ℤ
deriving DecidableEq, Repr

/-- `Rectangle.__post_init__`: the stored coordinates are reordered so that
`x1 ≤ x2` and `y1 ≤ y2`. -/
def mkRectangle (a b c d : ℤ) : Rectangle :=
  { x1 := min a c, y1 := min b d, x2 := max a c, y2 := max b d }

/-- `Rectangle.width` property: `x2 - x1`. -/
def Rectangle.width (r : Rectangle) : ℤ := r.x2 - r.x1

/-- `Rectangle.height` property: `y2 - y1`. -/
def Rectangle.height (r : Rectangle) : ℤ := r.y2 - r.y1

/-- `Rectangle.contains`: `x1 <= p.x <= x2 and y1 <= p.y <= y2`. -/
def Rectangle.contains (r : Rectangle) (p : Point) : Bool :=
  decide (r.x1 ≤ p.x ∧ p.x ≤ r.x2 ∧ r.y1 ≤ p.y ∧ p.y ≤ r.y2)

/-- Model of `random.randint a b`: a deterministic member of `[a, b]`
selected by a seed (for `a ≤ b` the result is `a + seed % (b - a + 1)`,
which ranges over the whole closed interval as the seed varies). -/
def randint (a b : ℤ) (seed : ℕ) : ℤ := a + (seed : ℤ) % (b - a + 1)

/-- Screen-dependent state of `CoordinateHelper`
(`utils/coordinate_helper.py`): the detected or manually set screen size. -/
structure CoordinateHelper where
  screen_width : ℤ
  screen_height : ℤ
deriving DecidableEq, Repr

/-- `CoordinateHelper.validate_coordinates`:
`margin <= x <= screen_width - margin and margin <= y <= screen_height - margin`. -/
def CoordinateHelper.validate_coordinates (ch : CoordinateHelper) (x y margin : ℤ) : Bool :=
  decide (margin ≤ x ∧ x ≤ ch.screen_width - margin ∧
          margin ≤ y ∧ y ≤ ch.screen_height - margin)

/-- `CoordinateHelper.validate_point`: validation of a `Point`. -/
def CoordinateHelper.validate_point (ch : CoordinateHelper) (p : Point) (margin : ℤ) : Bool :=
  ch.validate_coordinates p.x p.y margin

/-- `CoordinateHelper.clamp_coordinates`:
`max(margin, min(screen_width - margin, x))` and likewise for `y`. -/
def CoordinateHelper.clamp_coordinates (ch : CoordinateHelper) (x y margin : ℤ) : Point :=
  { x := max margin (min (ch.screen_width - margin) x),
    y := max margin (min (ch.screen_height - margin) y) }

/-- `CoordinateHelper.clamp_point`. -/
def CoordinateHelper.clamp_point (ch : CoordinateHelper) (p : Point) (margin : ℤ) : Point :=
  ch.clamp_coordinates p.x p.y margin

/-- `CoordinateHelper.get_random_point_in_range`: swaps the bounds when
`min_val > max_val`, then draws `random.randint(min_val, max_val)`
(modelled by a seed). -/
def CoordinateHelper.get_random_point_in_range (r : ℤ × ℤ) (seed : ℕ) : ℤ :=
  let p := if r.1 > r.2 then (r.2, r.1) else r
  randint p.1 p.2 seed

/-- `CoordinateHelper.get_random_point_in_area`: independent draws for the
x range and the y range. -/
def CoordinateHelper.get_random_point_in_area (xr yr : ℤ × ℤ) (sx sy : ℕ) : Point :=
  { x := CoordinateHelper.get_random_point_in_range xr sx,
    y := CoordinateHelper.get_random_point_in_range yr sy }

/-- `CoordinateHelper.get_random_point_in_rectangle`: samples the area
`(rect.x1, rect.x2) × (rect.y1, rect.y2)`. -/
def CoordinateHelper.get_random_point_in_rectangle (rect : Rectangle) (sx sy : ℕ) : Point :=
  CoordinateHelper.get_random_point_in_area (rect.x1, rect.x2) (rect.y1, rect.y2) sx sy

/-- The seed model of `random.randint` always lands in `[a, b]` when
`a ≤ b`. -/
theorem randint_mem (a b : ℤ) (s : ℕ) (h : a ≤ b) :
    a ≤ randint a b s ∧ randint a b s ≤ b := by
  unfold randint
  have hm : (0 : ℤ) < b - a + 1 := by omega
  have h1 : 0 ≤ (s : ℤ) % (b - a + 1) := Int.emod_nonneg _ (by omega)
  have h2 : (s : ℤ) % (b - a + 1) < b - a + 1 := Int.emod_lt_of_pos _ hm
  omega

/-- `get_random_point_in_range` always lands between the (unordered)
bounds of the requested range. -/
theorem get_random_point_in_range_mem (r : ℤ × ℤ) (s : ℕ) :
    min r.1 r.2 ≤ CoordinateHelper.get_random_point_in_range r s ∧
    CoordinateHelper.get_random_point_in_range r s ≤ max r.1 r.2 := by
  unfold CoordinateHelper.get_random_point_in_range
  rcases le_or_lt r.1 r.2 with h | h
  · simp only [not_lt.mpr h, if_neg (not_lt.mpr h)]
    have := randint_mem r.1 r.2 s h
    constructor
    · exact le_trans (min_le_left _ _) this.1
    · exact le_trans this.2 (le_max_right _ _)
  · simp only [if_pos h]
    have := randint_mem r.2 r.1 s (le_of_lt h)
    constructor
    · exact le_trans (min_le_right _ _) this.1
    · exact le_trans this.2 (le_max_left _ _)

/-- C9: for every rectangle (normalized by construction) with positive
width and positive height, the point returned by the random-point-in-region
sampler satisfies `Rectangle.contains`, for every pair of random draws. -/
theorem random_point_in_rectangle_contains (a b c d : ℤ) (sx sy : ℕ)
    (hw : 0 < (mkRectangle a b c d).width) (hh : 0 < (mkRectangle a b c d).height) :
    (mkRectangle a b c d).contains
      (CoordinateHelper.get_random_point_in_rectangle (mkRectangle a b c d) sx sy) = true := by
  set r := mkRectangle a b c d with hr
  have hx := get_random_point_in_range_mem (r.x1, r.x2) sx
  have hy := get_random_point_in_range_mem (r.y1, r.y2) sy
  have hxo : r.x1 ≤ r.x2 := by
    simp only [hr, mkRectangle] at *
    exact le_trans (min_le_left a c) (le_max_left a c)
  have hyo : r.y1 ≤ r.y2 := by
    simp only [hr, mkRectangle] at *
    exact le_trans (min_le_left b d) (le_max_left b d)
  simp only [Rectangle.contains, CoordinateHelper.get_random_point_in_rectangle,
    CoordinateHelper.get_random_point_in_area, decide_eq_true_eq]
  simp only [min_eq_left hxo, max_eq_right hxo] at hx
  simp only [min_eq_left hyo, max_eq_right hyo] at hy
  exact ⟨hx.1, hx.2, hy.1, hy.2⟩

/-- Witness for C9 at a concrete rectangle and seeds. -/
theorem random_point_in_rectangle_contains_witness :
    (mkRectangle 0 0 10 10).contains
      (CoordinateHelper.get_random_point_in_rectangle (mkRectangle 0 0 10 10) 3 7) = true :=
  random_point_in_rectangle_contains 0 0 10 10 3 7 (by decide) (by decide)

/-- Outcome of the target-selection logic of a pointer operation in
`core/mouse_controller.py`.  The timing, logging and `pyautogui` backend
calls are abstracted away: absent a backend exception the movement and
click primitives always report success, so the only failure decided by the
controller itself is coordinate rejection. -/
inductive ClickOutcome where
  | rejected : ClickOutcome
  | clicked (target : Point) : ClickOutcome
deriving DecidableEq, Repr

/-- `MouseController.click_at_coordinates`: builds `Point(x, y)`, validates
it with `margin=5`, and returns `False` immediately when the validation
fails; otherwise it moves to the point and clicks it (backend success
abstracted). -/
def click_at_coordinates (ch : CoordinateHelper) (x y : ℤ) : ClickOutcome :=
  if ch.validate_point { x := x, y := y } 5 then
    ClickOutcome.clicked { x := x, y := y }
  else
    ClickOutcome.rejected

/-- `MouseController.move_to_coordinates`: builds `Point(x, y)`, and when
validation (margin 0) fails replaces it by the clamped point, then moves
there; the function never fails on out-of-bounds input.  The embedding
returns the target actually moved to. -/
def move_to_coordinates (ch : CoordinateHelper) (x y : ℤ) : Point :=
  if ch.validate_point { x := x, y := y } 0 then { x := x, y := y }
  else ch.clamp_point { x := x, y := y } 0

/-- Counterexample to C2 as stated: on a 1920x1080 screen the request to
click at (5000, 500) — a point outside the screen plane — is rejected by
`click_at_coordinates` (it returns failure without clamping), so an
out-of-bounds request alone is a failure for this public pointer
operation. -/
theorem click_out_of_bounds_fails :
    click_at_coordinates { screen_width := 1920, screen_height := 1080 } 5000 500 =
      ClickOutcome.rejected ∧
    CoordinateHelper.validate_point { screen_width := 1920, screen_height := 1080 }
      { x := 5000, y := 500 } 5 = false := by
  decide

/-- C2 (amended): `move_to_coordinates` corrects an out-of-bounds target by
clamping it into the screen plane and always proceeds (its target is always
in bounds), while `click_at_coordinates` instead validates with margin 5
and returns failure for a point outside those bounds. -/
theorem pointer_out_of_bounds_handling (ch : CoordinateHelper) (x y : ℤ)
    (hW : 0 ≤ ch.screen_width) (hH : 0 ≤ ch.screen_height) :
    ch.validate_point (move_to_coordinates ch x y) 0 = true ∧
    (ch.validate_point { x := x, y := y } 0 = true →
      move_to_coordinates ch x y = { x := x, y := y }) ∧
    (ch.validate_point { x := x, y := y } 0 = false →
      move_to_coordinates ch x y = ch.clamp_point { x := x, y := y } 0) ∧
    (click_at_coordinates ch x y = ClickOutcome.rejected ↔
      ch.validate_point { x := x, y := y } 5 = false) := by
  refine ⟨?_, ?_, ?_, ?_⟩
  · unfold move_to_coordinates
    by_cases h : ch.validate_point { x := x, y := y } 0 = true
    · simp only [h, if_true]
    · simp only [h, if_false, Bool.false_eq_true]
      simp only [CoordinateHelper.validate_point, CoordinateHelper.validate_coordinates,
        CoordinateHelper.clamp_point, CoordinateHelper.clamp_coordinates,
        decide_eq_true_eq]
      omega
  · intro h
    simp only [move_to_coordinates, h, if_true]
  · intro h
    simp only [move_to_coordinates, h, Bool.false_eq_true, if_false]
  · unfold click_at_coordinates
    by_cases h : ch.validate_point { x := x, y := y } 5 = true
    · simp [h]
    · simp [h]

/-- Witness for C2 (amended) at the concrete counterexample screen and
point. -/
theorem pointer_out_of_bounds_handling_witness :
    CoordinateHelper.validate_point { screen_width := 1920, screen_height := 1080 }
      (move_to_coordinates { screen_width := 1920, screen_height := 1080 } 5000 500) 0 = true :=
  (pointer_out_of_bounds_handling { screen_width := 1920, screen_height := 1080 } 5000 500
    (by decide) (by decide)).1

/-- `ActivityLevel` enum from `utils/random_helper.py`. -/
inductive ActivityLevel where
  | tired
  | normal
  | energetic
  | focused
  | distracted
deriving DecidableEq, Repr

/-- `TypingStyle` enum from `utils/random_helper.py`. -/
inductive TypingStyle where
  | hunt_and_peck
  | touch_typing
  | casual
  | professional
  | mobile
deriving DecidableEq, Repr

/-- `BehaviorProfile` dataclass from `utils/random_helper.py`. -/
structure BehaviorProfile where
  activity_level : ActivityLevel
  typing_style : TypingStyle
  mistake_proneness : ℚ
  hesitation_tendency : ℚ
  multitasking_level : ℚ
  attention_span : ℚ
  fatigue_factor : ℚ
  consistency : ℚ
deriving DecidableEq, Repr

/-- The default `BehaviorProfile()` field values. -/
def defaultProfile : BehaviorProfile :=
  { activity_level := ActivityLevel.normal
    typing_style := TypingStyle.casual
    mistake_proneness := 0
    hesitation_tendency := 1/10
    multitasking_level := 1/10
    attention_span := 8/10
    fatigue_factor := 0
    consistency := 7/10 }

/-- `RandomHelper.get_current_fatigue`: from the elapsed session time in
seconds, `session_hours = seconds / 3600`,
`time_fatigue = min(0.3, session_hours * 0.1)`, and the result is
`min(1.0, fatigue_factor + time_fatigue)`. -/
def get_current_fatigue (p : BehaviorProfile) (session_seconds : ℚ) : ℚ :=
  let session_hours := session_seconds / 3600
  let time_fatigue := min (3/10) (session_hours * (1/10))
  min 1 (p.fatigue_factor + time_fatigue)

/-- `RandomHelper.get_attention_level`:
`max(0.1, attention_span * (1 - fatigue * 0.5))`. -/
def get_attention_level (p : BehaviorProfile) (session_seconds : ℚ) : ℚ :=
  let fatigue := get_current_fatigue p session_seconds
  max (1/10) (p.attention_span * (1 - fatigue * (1/2)))

/-- `RandomHelper.get_click_delay`.  The random draws are explicit
parameters: `u` is `random.uniform(min_delay, max_delay)`,
`activity_multiplier` is the per-call result of `_get_activity_multiplier`,
`consistency_roll` is the `random.random()` compared against the profile's
consistency, and `variation` is `random.uniform(0.5, 1.5)`. -/
def get_click_delay (p : BehaviorProfile) (session_seconds : ℚ)
    (min_delay max_delay : ℚ) (contextual : Bool)
    (u activity_multiplier consistency_roll variation : ℚ) : ℚ :=
  let base_delay := u
  if contextual = false then base_delay
  else
    let fatigue := get_current_fatigue p session_seconds
    let fatigue_multiplier := 1 + fatigue * (1/2)
    let base_delay := if p.consistency < consistency_roll then base_delay * variation
                      else base_delay
    let final_delay := base_delay * activity_multiplier * fatigue_multiplier
    max min_delay (min (max_delay * 2) final_delay)

/-- Counterexample to C3 as stated: with the default profile (base fatigue
0), the session-time term has only reached 0.1 after one hour — not its
+0.3 cap — and fatigue keeps rising after the first hour (it is strictly
larger at two hours). -/
theorem fatigue_cap_not_reached_in_first_hour :
    get_current_fatigue defaultProfile 3600 = 1/10 ∧
    get_current_fatigue defaultProfile 3600 < 3/10 ∧
    get_current_fatigue defaultProfile 3600 < get_current_fatigue defaultProfile 7200 := by
  norm_num [get_current_fatigue, defaultProfile]

/-- C3 (amended): fatigue equals the profile's base `fatigue_factor` plus a
session-time term `min(0.3, hours * 0.1)` that rises at 0.1 per hour and
reaches its +0.3 cap after three hours (total capped at 1.0); attention is
`max(0.1, attention_span * (1 - fatigue/2))`, which falls as fatigue rises
(for a nonnegative attention span) and never drops below the 0.1 floor. -/
theorem fatigue_attention_derivation (p : BehaviorProfile) (t : ℚ)
    (hspan : 0 ≤ p.attention_span) :
    get_current_fatigue p t =
      min 1 (p.fatigue_factor + min (3/10) (t / 3600 * (1/10))) ∧
    (10800 ≤ t → get_current_fatigue p t = min 1 (p.fatigue_factor + 3/10)) ∧
    (∀ t2, get_current_fatigue p t ≤ get_current_fatigue p t2 →
      get_attention_level p t2 ≤ get_attention_level p t) ∧
    1/10 ≤ get_attention_level p t := by
  refine ⟨rfl, ?_, ?_, ?_⟩
  · intro hcap
    show min 1 (p.fatigue_factor + min (3/10) (t / 3600 * (1/10))) =
      min 1 (p.fatigue_factor + 3/10)
    have h : min (3/10 : ℚ) (t / 3600 * (1/10)) = 3/10 := by
      apply min_eq_left
      linarith
    rw [h]
  · intro t2 hf
    unfold get_attention_level
    apply max_le_max le_rfl
    apply mul_le_mul_of_nonneg_left _ hspan
    linarith
  · exact le_max_left _ _

/-- Witness for C3 (amended) at the default profile and a two-hour
session. -/
theorem fatigue_attention_derivation_witness :
    1/10 ≤ get_attention_level defaultProfile 7200 :=
  (fatigue_attention_derivation defaultProfile 7200 (by norm_num [defaultProfile])).2.2.2

/-- C7: for a fixed profile, fatigue is monotonically non-decreasing and
attention monotonically non-increasing in the elapsed session time (the
attention span being nonnegative, as the profile documents it lies in
[0, 1]). -/
theorem fatigue_monotone_attention_antitone (p : BehaviorProfile) (t1 t2 : ℚ)
    (hspan : 0 ≤ p.attention_span) (h12 : t1 ≤ t2) :
    get_current_fatigue p t1 ≤ get_current_fatigue p t2 ∧
    get_attention_level p t2 ≤ get_attention_level p t1 := by
  have hfat : get_current_fatigue p t1 ≤ get_current_fatigue p t2 := by
    unfold get_current_fatigue
    apply min_le_min le_rfl
    apply add_le_add_left
    apply min_le_min le_rfl
    linarith
  refine ⟨hfat, ?_⟩
  unfold get_attention_level
  apply max_le_max le_rfl
  apply mul_le_mul_of_nonneg_left _ hspan
  linarith

/-- Witness for C7 at the default profile and the session times one and two
hours. -/
theorem fatigue_monotone_attention_antitone_witness :
    get_current_fatigue defaultProfile 3600 ≤ get_current_fatigue defaultProfile 7200 ∧
    get_attention_level defaultProfile 7200 ≤ get_attention_level defaultProfile 3600 :=
  fatigue_monotone_attention_antitone defaultProfile 3600 7200
    (by norm_num [defaultProfile]) (by norm_num)

/-- Counterexample to C6 as stated: with both bounds equal to -1 (so
min ≤ max holds and the uniform draw is forced to -1), the returned delay
is -1, which is strictly greater than `2 · max = -2`: the result does not
lie in the claimed interval `[min, 2·max]`. -/
theorem click_delay_outside_claimed_interval :
    get_click_delay defaultProfile 0 (-1) (-1) true (-1) 1 0 1 = -1 ∧
    ¬ (get_click_delay defaultProfile 0 (-1) (-1) true (-1) 1 0 1 ≤ 2 * (-1 : ℚ)) := by
  norm_num [get_click_delay, get_current_fatigue, defaultProfile]

/-- C6 (amended): for all profiles, session times, draws and multipliers,
and all bounds with `min_delay ≤ max_delay` and `0 ≤ max_delay`, the click
delay lies in `[min_delay, 2 · max_delay]` (the non-contextual path needs
the uniform draw to respect its `[min_delay, max_delay]` contract; the
contextual path is clamped regardless of every multiplier). -/
theorem click_delay_clamped (p : BehaviorProfile) (t min_delay max_delay : ℚ)
    (contextual : Bool) (u activity_multiplier consistency_roll variation : ℚ)
    (hmm : min_delay ≤ max_delay) (hmax : 0 ≤ max_delay)
    (hu1 : min_delay ≤ u) (hu2 : u ≤ max_delay) :
    min_delay ≤ get_click_delay p t min_delay max_delay contextual u
      activity_multiplier consistency_roll variation ∧
    get_click_delay p t min_delay max_delay contextual u
      activity_multiplier consistency_roll variation ≤ max_delay * 2 := by
  rcases contextual with _ | _
  · exact ⟨hu1, by show u ≤ max_delay * 2; linarith⟩
  · exact ⟨le_max_left _ _, max_le (by linarith) (min_le_left _ _)⟩

/-- Witness for C6 (amended) at concrete bounds and draws. -/
theorem click_delay_clamped_witness :
    (1/10 : ℚ) ≤ get_click_delay defaultProfile 0 (1/10) (1/2) true (1/4) 1 0 1 ∧
    get_click_delay defaultProfile 0 (1/10) (1/2) true (1/4) 1 0 1 ≤ (1/2) * 2 :=
  click_delay_clamped defaultProfile 0 (1/10) (1/2) true (1/4) 1 0 1
    (by norm_num) (by norm_num) (by norm_num) (by norm_num)

/-- Loop state of `BatchProcessor.execute_batch_processing`
(`utils/batch_processor.py`): the success / failure counters, the
`current_notebook_number` held by the user-config object, and a flag
recording that the `break` in the failure branch was taken. -/
structure BatchState where
  successful_notebooks : ℕ
  failed_notebooks : ℕ
  current_notebook_number : ℕ
  stopped : Bool
deriving DecidableEq, Repr

/-- One iteration of the `for i in range(total_notebooks)` loop.
`results i` is the value returned by `sequence_executor` for iteration `i`
and `decisions i` the operator's continue-or-stop answer collected after a
failure.  On success the success counter and the current number are
incremented; on failure the failure counter is incremented and then either
the current number is incremented (operator continues) or the loop breaks
immediately — before the `current_notebook_number += 1` line.  A set
`stopped` flag makes all later iterations no-ops, which is how the embedding
renders `break`. -/
def batchStep (results decisions : ℕ → Bool) (st : BatchState) (i : ℕ) : BatchState :=
  if st.stopped then st
  else if results i then
    { st with successful_notebooks := st.successful_notebooks + 1,
              current_notebook_number := st.current_notebook_number + 1 }
  else if decisions i then
    { st with failed_notebooks := st.failed_notebooks + 1,
              current_notebook_number := st.current_notebook_number + 1 }
  else
    { st with failed_notebooks := st.failed_notebooks + 1, stopped := true }

/-- The loop state after the first `k` iterations, starting from the reset
state (`successful = failed = 0`, `current_notebook_number = start`). -/
def batchRun (start_number : ℕ) (results decisions : ℕ → Bool) (k : ℕ) : BatchState :=
  (List.range k).foldl (batchStep results decisions)
    { successful_notebooks := 0, failed_notebooks := 0,
      current_notebook_number := start_number, stopped := false }

/-- `BatchProcessor.execute_batch_processing`: the final loop state after
all `total_notebooks` iterations. -/
def execute_batch_processing (start_number total_notebooks : ℕ)
    (results decisions : ℕ → Bool) : BatchState :=
  batchRun start_number results decisions total_notebooks

/-- The data printed by `BatchProcessor.print_batch_summary` and returned
by `get_execution_stats` (timing fields aside): the configured and actual
end numbers, the counters, the success rate (`successful / total * 100`
when `total > 0`, else 0), and the early-termination record with its
remaining-notebook count (`expected_end - actual_end`), printed exactly
when `actual_end < expected_end`. -/
structure BatchSummary where
  successful : ℕ
  failed : ℕ
  end_number_configured : ℤ
  end_number_actual : ℤ
  early_termination : Bool
  remaining : ℤ
  success_rate : ℚ
deriving DecidableEq, Repr

/-- `BatchProcessor.print_batch_summary` / `get_execution_stats` on a final
loop state. -/
def print_batch_summary (start_number total_notebooks : ℕ) (st : BatchState) : BatchSummary :=
  let expected_end : ℤ := (start_number : ℤ) + total_notebooks - 1
  let actual_end : ℤ := (st.current_notebook_number : ℤ) - 1
  { successful := st.successful_notebooks
    failed := st.failed_notebooks
    end_number_configured := expected_end
    end_number_actual := actual_end
    early_termination := decide (actual_end < expected_end)
    remaining := expected_end - actual_end
    success_rate := if 0 < total_notebooks then
        (st.successful_notebooks : ℚ) / total_notebooks * 100
      else 0 }

/-- Unit outcomes of the C1 / C10 scenario: unit 1 (index 0) succeeds and
every later unit fails. -/
def scenarioResults : ℕ → Bool := fun i => i == 0

/-- Operator decision of the C1 / C10 scenario: always decline to
continue. -/
def scenarioDecisions : ℕ → Bool := fun _ => false

/-- Unfolding of one more loop iteration. -/
theorem batchRun_succ (s : ℕ) (r d : ℕ → Bool) (k : ℕ) :
    batchRun s r d (k + 1) = batchStep r d (batchRun s r d k) k := by
  unfold batchRun
  rw [List.range_succ, List.foldl_append]
  rfl

/-- Characterization of the loop state after `k` iterations: either no
break has occurred — every earlier unit succeeded or was continued past —
and the counters sum to `k` with the current number at `start + k`; or the
loop broke at the first iteration `j` that both failed and was declined,
the counters sum to `j + 1`, and the current number is still `start + j`
(the increment after the failed unit was skipped by the break). -/
theorem batchRun_spec (s : ℕ) (r d : ℕ → Bool) (k : ℕ) :
    ((batchRun s r d k).stopped = false ∧
     (batchRun s r d k).successful_notebooks + (batchRun s r d k).failed_notebooks = k ∧
     (batchRun s r d k).current_notebook_number = s + k ∧
     ∀ j, j < k → (r j || d j) = true) ∨
    ((batchRun s r d k).stopped = true ∧
     ∃ j, j < k ∧ (r j || d j) = false ∧ (∀ i, i < j → (r i || d i) = true) ∧
       (batchRun s r d k).successful_notebooks + (batchRun s r d k).failed_notebooks = j + 1 ∧
       (batchRun s r d k).current_notebook_number = s + j) := by
  induction k with
  | zero =>
    left
    refine ⟨rfl, rfl, rfl, fun j hj => absurd hj (Nat.not_lt_zero j)⟩
  | succ k ih =>
    rw [batchRun_succ]
    rcases ih with ⟨hst, hsum, hcur, hgood⟩ | ⟨hst, j, hj, hbad, hgood, hsum, hcur⟩
    · cases hr : r k with
      | true =>
        left
        simp only [batchStep, hst, Bool.false_eq_true, if_false, hr, if_true]
        refine ⟨trivial, by omega, by omega, ?_⟩
        intro j hj
        rcases Nat.lt_succ_iff_lt_or_eq.mp hj with h | h
        · exact hgood j h
        · subst h; simp [hr]
      | false =>
        cases hd : d k with
        | true =>
          left
          simp only [batchStep, hst, Bool.false_eq_true, if_false, hr, hd, if_true]
          refine ⟨trivial, by omega, by omega, ?_⟩
          intro j hj
          rcases Nat.lt_succ_iff_lt_or_eq.mp hj with h | h
          · exact hgood j h
          · subst h; simp [hd]
        | false =>
          right
          simp only [batchStep, hst, Bool.false_eq_true, if_false, hr, hd]
          refine ⟨trivial, k, Nat.lt_succ_self k, by simp [hr, hd], hgood, by omega, by omega⟩
    · simp only [batchStep, hst, if_true]
      right
      exact ⟨trivial, j, Nat.lt_succ_of_lt hj, hbad, hgood, hsum, hcur⟩

/-- Number of loop iterations actually executed among the first `k`:
iteration `i` runs exactly when no earlier iteration both failed and had
the operator decline (i.e. the `break` was not reached before `i`).  This
counts the units of work actually attempted, independently of the loop
state. -/
def execCount (results decisions : ℕ → Bool) : ℕ → ℕ
  | 0 => 0
  | k + 1 =>
    execCount results decisions k +
      (if (List.range k).all (fun j => results j || decisions j) then 1 else 0)

/-- When no break occurs in the first `k` iterations, all of them run. -/
theorem execCount_all_good (r d : ℕ → Bool) (k : ℕ)
    (h : ∀ j, j < k → (r j || d j) = true) : execCount r d k = k := by
  induction k with
  | zero => rfl
  | succ k ih =>
    unfold execCount
    rw [ih (fun j hj => h j (Nat.lt_succ_of_lt hj))]
    have hall : (List.range k).all (fun j => r j || d j) = true := by
      rw [List.all_eq_true]
      intro j hj
      exact h j (Nat.lt_succ_of_lt (List.mem_range.mp hj))
    rw [hall]
    simp

/-- When the first break happens at iteration `j < k`, exactly the
iterations `0..j` run. -/
theorem execCount_first_bad (r d : ℕ → Bool) (j k : ℕ)
    (hbad : (r j || d j) = false) (hgood : ∀ i, i < j → (r i || d i) = true)
    (hjk : j < k) : execCount r d k = j + 1 := by
  induction k with
  | zero => omega
  | succ k ih =>
    rcases Nat.lt_succ_iff_lt_or_eq.mp hjk with h | h
    · unfold execCount
      rw [ih h]
      have hall : (List.range k).all (fun i => r i || d i) = false := by
        have hmem : j ∈ List.range k := List.mem_range.mpr h
        rcases Bool.eq_false_or_eq_true ((List.range k).all (fun i => r i || d i)) with
          ht | hf
        · exfalso
          have := (List.all_eq_true.mp ht) j hmem
          rw [hbad] at this
          exact Bool.false_ne_true this
        · exact hf
      rw [hall]
      simp
    · subst h
      unfold execCount
      rw [execCount_all_good r d j hgood]
      have hall : (List.range j).all (fun i => r i || d i) = true := by
        rw [List.all_eq_true]
        intro i hi
        exact hgood i (List.mem_range.mp hi)
      rw [hall]
      simp

/-- C4: at every point of a batch run (after any `k ≤ total` iterations),
`success_count + failure_count + remaining-unattempted = total` and
`success_count + failure_count ≤ total`; and when the run has terminated
early via an operator decline, the current unit number never exceeds
`start + total - 1`. -/
theorem batch_invariants (start total : ℕ) (results decisions : ℕ → Bool) (k : ℕ)
    (hk : k ≤ total) :
    (batchRun start results decisions k).successful_notebooks +
      (batchRun start results decisions k).failed_notebooks +
      (total - execCount results decisions k) = total ∧
    (batchRun start results decisions k).successful_notebooks +
      (batchRun start results decisions k).failed_notebooks ≤ total ∧
    ((batchRun start results decisions k).stopped = true →
      ((batchRun start results decisions k).current_notebook_number : ℤ) ≤
        (start : ℤ) + total - 1) := by
  rcases batchRun_spec start results decisions k with
    ⟨hst, hsum, hcur, hgood⟩ | ⟨hst, j, hj, hbad, hgood, hsum, hcur⟩
  · rw [execCount_all_good results decisions k hgood]
    refine ⟨by omega, by omega, ?_⟩
    intro h
    rw [hst] at h
    exact absurd h (by simp)
  · rw [execCount_first_bad results decisions j k hbad hgood hj]
    refine ⟨by omega, by omega, ?_⟩
    intro _
    rw [hcur]
    push_cast
    omega

/-- Witness for C4 after two iterations of the concrete 3-unit scenario. -/
theorem batch_invariants_witness :
    (batchRun 1 scenarioResults scenarioDecisions 2).successful_notebooks +
      (batchRun 1 scenarioResults scenarioDecisions 2).failed_notebooks +
      (3 - execCount scenarioResults scenarioDecisions 2) = 3 :=
  (batch_invariants 1 3 scenarioResults scenarioDecisions 2 (by decide)).1

/-- C1, evaluated: in the batch of 3 starting at 1 where unit 2 fails and
the operator declines, the code's summary has `successful = 1` and
`failed = 1` as the claim says, but the loop breaks before the
`current_notebook_number += 1` line, so the counter stays at `start + 1 = 2`,
the reported actually-processed range ends at `start = 1` (not `start + 1`),
and the early-termination record reports 2 remaining notebooks (not 1) —
even though two units were processed and only one was never attempted. -/
theorem batch_scenario_code_result :
    (execute_batch_processing 1 3 scenarioResults scenarioDecisions).successful_notebooks = 1 ∧
    (execute_batch_processing 1 3 scenarioResults scenarioDecisions).failed_notebooks = 1 ∧
    (execute_batch_processing 1 3 scenarioResults scenarioDecisions).current_notebook_number = 2 ∧
    (print_batch_summary 1 3
      (execute_batch_processing 1 3 scenarioResults scenarioDecisions)).end_number_actual = 1 ∧
    (print_batch_summary 1 3
      (execute_batch_processing 1 3 scenarioResults scenarioDecisions)).early_termination = true ∧
    (print_batch_summary 1 3
      (execute_batch_processing 1 3 scenarioResults scenarioDecisions)).remaining = 2 ∧
    ¬ ((print_batch_summary 1 3
      (execute_batch_processing 1 3 scenarioResults scenarioDecisions)).end_number_actual = 1 + 1) ∧
    ¬ ((print_batch_summary 1 3
      (execute_batch_processing 1 3 scenarioResults scenarioDecisions)).remaining = 1) := by
  refine ⟨by decide, by decide, by decide, by decide, by decide, by decide, by decide, by decide⟩

/-- C10: the batch summary's success rate always divides by the configured
total, not by the number of units actually processed; in the 3-unit
scenario stopped after 2 processed units with 1 success the reported rate
is 100/3 (33.3%), not 50%. -/
theorem success_rate_denominator_is_total :
    (∀ (start total : ℕ) (results decisions : ℕ → Bool), 0 < total →
      (print_batch_summary start total
          (execute_batch_processing start total results decisions)).success_rate =
        ((execute_batch_processing start total results decisions).successful_notebooks : ℚ)
          / total * 100) ∧
    ((execute_batch_processing 1 3 scenarioResults scenarioDecisions).successful_notebooks = 1 ∧
     (execute_batch_processing 1 3 scenarioResults scenarioDecisions).successful_notebooks +
       (execute_batch_processing 1 3 scenarioResults scenarioDecisions).failed_notebooks = 2 ∧
     (print_batch_summary 1 3
       (execute_batch_processing 1 3 scenarioResults scenarioDecisions)).success_rate = 100/3 ∧
     (print_batch_summary 1 3
       (execute_batch_processing 1 3 scenarioResults scenarioDecisions)).success_rate ≠ 50) := by
  have hst : execute_batch_processing 1 3 scenarioResults scenarioDecisions =
      { successful_notebooks := 1, failed_notebooks := 1,
        current_notebook_number := 2, stopped := true } := by decide
  constructor
  · intro start total results decisions h
    show (if 0 < total then
        ((execute_batch_processing start total results decisions).successful_notebooks : ℚ)
          / total * 100 else 0) =
      ((execute_batch_processing start total results decisions).successful_notebooks : ℚ)
        / total * 100
    rw [if_pos h]
  · rw [hst]
    refine ⟨rfl, rfl, ?_, ?_⟩
    · show (if 0 < 3 then ((1 : ℕ) : ℚ) / 3 * 100 else 0) = 100/3
      norm_num
    · show (if 0 < 3 then ((1 : ℕ) : ℚ) / 3 * 100 else 0) ≠ 50
      norm_num

/-- Witness for C10 instantiating the universal clause at the scenario. -/
theorem success_rate_denominator_is_total_witness :
    (print_batch_summary 1 3
        (execute_batch_processing 1 3 scenarioResults scenarioDecisions)).success_rate =
      ((execute_batch_processing 1 3 scenarioResults scenarioDecisions).successful_notebooks : ℚ)
        / 3 * 100 :=
  success_rate_denominator_is_total.1 1 3 scenarioResults scenarioDecisions (by decide)

/-- Recursion of `MouseController.click_with_retry`
(`core/mouse_controller.py`): `attempts i` is the result of the
`click_in_area` call at attempt index `i` (the backend abstracted), the
first argument is the number of loop iterations left, then the current
attempt index and the sleeps accumulated so far.  On success the loop
returns `True` immediately; after a failed attempt — the last one
included — it sleeps `1.0 + attempt * 0.5` seconds and continues.  The
result is the returned boolean, the number of attempts performed and the
sleep schedule in seconds. -/
def click_with_retry_go (attempts : ℕ → Bool) :
    ℕ → ℕ → List ℚ → Bool × ℕ × List ℚ
  | 0, attempt, sleeps => (false, attempt, sleeps)
  | remaining + 1, attempt, sleeps =>
    if attempts attempt then (true, attempt + 1, sleeps)
    else click_with_retry_go attempts remaining (attempt + 1)
      (sleeps ++ [1 + (attempt : ℚ) * (1/2)])

/-- `MouseController.click_with_retry`: `for attempt in range(max_retries)`
starting with no sleeps taken. -/
def click_with_retry (attempts : ℕ → Bool) (max_retries : ℕ) : Bool × ℕ × List ℚ :=
  click_with_retry_go attempts max_retries 0 []

/-- Counterexample to C8 as stated: when every attempt fails, the sleep
schedule of `click_with_retry(_, 3)` is `[1.0, 1.5, 2.0]` — the loop also
sleeps 2.0 s after the third and final failed attempt — and not the claimed
`[1.0, 1.5]` with no other sleep. -/
theorem click_with_retry_extra_trailing_sleep :
    (click_with_retry (fun _ => false) 3).2.2 = [1, 3/2, 2] ∧
    ¬ ((click_with_retry (fun _ => false) 3).2.2 = [1, 3/2]) := by
  have hfull : click_with_retry (fun _ => false) 3 = (false, 3, [1, 3/2, 2]) := by
    show click_with_retry_go (fun _ => false) 3 0 [] = (false, 3, [1, 3/2, 2])
    rw [click_with_retry_go]
    simp only [Bool.false_eq_true, if_false]
    rw [click_with_retry_go]
    simp only [Bool.false_eq_true, if_false]
    rw [click_with_retry_go]
    simp only [Bool.false_eq_true, if_false]
    rw [click_with_retry_go]
    norm_num
  rw [hfull]
  norm_num

/-- C8 (amended): when every underlying click attempt fails,
`click_with_retry(region, max_retries=3)` returns failure after exactly 3
attempts; the sleep after failed attempt `i` is `1.0 + 0.5·i`, so the
delays between attempts are 1.0 s and 1.5 s, followed by one final 2.0 s
sleep after the last failed attempt; failure is returned only once all
retries are exhausted. -/
theorem click_with_retry_all_fail (attempts : ℕ → Bool)
    (h : ∀ i, attempts i = false) :
    click_with_retry attempts 3 = (false, 3, [1, 3/2, 2]) := by
  unfold click_with_retry
  show click_with_retry_go attempts 3 0 [] = (false, 3, [1, 3/2, 2])
  rw [click_with_retry_go, h 0]
  simp only [Bool.false_eq_true, if_false]
  rw [click_with_retry_go, h 1]
  simp only [Bool.false_eq_true, if_false]
  rw [click_with_retry_go, h 2]
  simp only [Bool.false_eq_true, if_false]
  rw [click_with_retry_go]
  norm_num

/-- Truncation toward zero of a rational: Python's `int(...)` conversion
applied to the sampled Bezier coordinates. -/
def intTrunc (q : ℚ) : ℤ := if q < 0 then -⌊-q⌋ else ⌊q⌋

/-- `intTrunc` is the identity on integers. -/
theorem intTrunc_intCast (n : ℤ) : intTrunc (n : ℚ) = n := by
  unfold intTrunc
  split
  · rw [← Int.cast_neg, Int.floor_intCast]
    omega
  · exact Int.floor_intCast n

/-- `CoordinateHelper.offset_coordinates` in its `distribution="gaussian"`
branch — the one `generate_natural_path` uses: the draws `gx, gy` stand for
`int(random.gauss(0, std_dev))`, each is clamped to
`[-max_offset, max_offset]`, the offsets are added, and the result is
clamped to the screen bounds. -/
def CoordinateHelper.offset_coordinates (ch : CoordinateHelper)
    (x y max_offset gx gy : ℤ) : Point :=
  let offset_x := max (-max_offset) (min max_offset gx)
  let offset_y := max (-max_offset) (min max_offset gy)
  ch.clamp_coordinates (x + offset_x) (y + offset_y) 0

/-- The `offset_range = int(distance * curve_intensity * 0.5)` computation
of `generate_smooth_path`, expressed exactly: for `curve_intensity = a/b ≥ 0`
one has `⌊√d2 · (a/b) · (1/2)⌋ = ⌊√(d2·a²)⌋ / (2b)` where `d2` is the
squared distance. -/
def bezierOffsetRange (d2 : ℕ) (ci : ℚ) : ℤ :=
  (Nat.sqrt (d2 * ci.num.toNat ^ 2) / (2 * ci.den) : ℕ)

/-- The randomly offset Bezier control point of `generate_smooth_path`:
the midpoint of start and end (integer floor division by 2, as in Python
`//`) plus `random.randint(-offset_range, offset_range)` offsets when
`offset_range > 0`, else zero offsets. -/
def bezierControl (p e : Point) (ci : ℚ) (s1 s2 : ℕ) : Point :=
  let offset_range := bezierOffsetRange (p.sqDist e) ci
  { x := (p.x + e.x) / 2 +
      (if 0 < offset_range then randint (-offset_range) offset_range s1 else 0),
    y := (p.y + e.y) / 2 +
      (if 0 < offset_range then randint (-offset_range) offset_range s2 else 0) }

/-- One sampled point of the quadratic Bezier curve of
`generate_smooth_path` at index `i`: `t = i / (steps - 1)`,
`P(t) = (1-t)²·start + 2(1-t)t·control + t²·end`, converted with `int()`
and clamped to the screen bounds. -/
def bezierPoint (ch : CoordinateHelper) (p e c : Point) (steps i : ℕ) : Point :=
  ch.clamp_coordinates
    (intTrunc ((1 - (i : ℚ) / ((steps - 1 : ℕ) : ℚ)) ^ 2 * p.x +
      2 * (1 - (i : ℚ) / ((steps - 1 : ℕ) : ℚ)) * ((i : ℚ) / ((steps - 1 : ℕ) : ℚ)) * c.x +
      ((i : ℚ) / ((steps - 1 : ℕ) : ℚ)) ^ 2 * e.x))
    (intTrunc ((1 - (i : ℚ) / ((steps - 1 : ℕ) : ℚ)) ^ 2 * p.y +
      2 * (1 - (i : ℚ) / ((steps - 1 : ℕ) : ℚ)) * ((i : ℚ) / ((steps - 1 : ℕ) : ℚ)) * c.y +
      ((i : ℚ) / ((steps - 1 : ℕ) : ℚ)) ^ 2 * e.y))
    0

/-- `CoordinateHelper.generate_smooth_path`: `[start, end]` when
`steps <= 2`, otherwise the `steps` sampled points of the quadratic Bezier
curve through the random control point, each clamped to the screen. -/
def CoordinateHelper.generate_smooth_path (ch : CoordinateHelper) (p e : Point)
    (steps : ℕ) (curve_intensity : ℚ) (s1 s2 : ℕ) : List Point :=
  if steps ≤ 2 then [p, e]
  else (List.range steps).map (bezierPoint ch p e (bezierControl p e curve_intensity s1 s2) steps)

/-- The `if human_like` loop of `generate_natural_path`: every path point
receives a fresh Gaussian jitter draw (`max_offset=2`), consumed in order
from the stream `g`. -/
def applyJitter (ch : CoordinateHelper) (g : ℕ → ℤ × ℤ) : ℕ → List Point → List Point
  | _, [] => []
  | k, q :: qs =>
    ch.offset_coordinates q.x q.y 2 (g k).1 (g k).2 :: applyJitter ch g (k + 1) qs

/-- `steps = max(5, int(distance / 15))` of `generate_natural_path`
(`int(√d2 / 15) = ⌊⌊√d2⌋ / 15⌋`). -/
def naturalSteps (p e : Point) : ℕ := max 5 (Nat.sqrt (p.sqDist e) / 15)

/-- The distance-dependent curve intensity of `generate_natural_path`:
0.1 for distance < 50 (d2 < 2500), 0.2 for distance < 200 (d2 < 40000),
else 0.3. -/
def naturalCurve (p e : Point) : ℚ :=
  if p.sqDist e < 2500 then 1/10 else if p.sqDist e < 40000 then 2/10 else 3/10

/-- `CoordinateHelper.generate_natural_path`: the smooth Bezier path with
the distance-derived step count and curve intensity, then — when
`human_like` — the per-point Gaussian jitter pass. -/
def CoordinateHelper.generate_natural_path (ch : CoordinateHelper) (p e : Point)
    (human_like : Bool) (s1 s2 : ℕ) (g : ℕ → ℤ × ℤ) : List Point :=
  let path := ch.generate_smooth_path p e (naturalSteps p e) (naturalCurve p e) s1 s2
  if human_like then applyJitter ch g 0 path else path

/-- The Bezier sample at index 0 is the clamped start point. -/
theorem bezierPoint_zero (ch : CoordinateHelper) (p e c : Point) (steps : ℕ) :
    bezierPoint ch p e c steps 0 = ch.clamp_coordinates p.x p.y 0 := by
  unfold bezierPoint
  norm_num [intTrunc_intCast]

/-- The Bezier sample at index `steps - 1` is the clamped end point. -/
theorem bezierPoint_last (ch : CoordinateHelper) (p e c : Point) (steps : ℕ)
    (h : 2 ≤ steps) :
    bezierPoint ch p e c steps (steps - 1) = ch.clamp_coordinates e.x e.y 0 := by
  unfold bezierPoint
  have h1 : ((steps - 1 : ℕ) : ℚ) ≠ 0 := by
    rw [Nat.cast_ne_zero]
    omega
  rw [div_self h1]
  norm_num [intTrunc_intCast]

/-- Clamping is the identity on points that validate with margin 0. -/
theorem clamp_of_valid (ch : CoordinateHelper) (x y : ℤ)
    (h : ch.validate_coordinates x y 0 = true) :
    ch.clamp_coordinates x y 0 = { x := x, y := y } := by
  simp only [CoordinateHelper.validate_coordinates, decide_eq_true_eq] at h
  simp only [CoordinateHelper.clamp_coordinates, Point.mk.injEq]
  omega

/-- A gaussian-jittered point stays within ±2 px of an in-bounds source
point in each coordinate, for every draw. -/
theorem offset_coordinates_close (ch : CoordinateHelper) (q : Point) (gx gy : ℤ)
    (hq : ch.validate_point q 0 = true) :
    q.x - 2 ≤ (ch.offset_coordinates q.x q.y 2 gx gy).x ∧
    (ch.offset_coordinates q.x q.y 2 gx gy).x ≤ q.x + 2 ∧
    q.y - 2 ≤ (ch.offset_coordinates q.x q.y 2 gx gy).y ∧
    (ch.offset_coordinates q.x q.y 2 gx gy).y ≤ q.y + 2 := by
  simp only [CoordinateHelper.validate_point, CoordinateHelper.validate_coordinates,
    decide_eq_true_eq] at hq
  simp only [CoordinateHelper.offset_coordinates, CoordinateHelper.clamp_coordinates]
  refine ⟨?_, ?_, ?_, ?_⟩ <;> omega

/-- The jitter pass preserves the path length. -/
theorem applyJitter_length (ch : CoordinateHelper) (g : ℕ → ℤ × ℤ) (l : List Point) :
    ∀ k, (applyJitter ch g k l).length = l.length := by
  induction l with
  | nil => intro k; rfl
  | cons q qs ih =>
    intro k
    simp only [applyJitter, List.length_cons, ih (k + 1)]

/-- The jitter pass maps the final path point to its jittered image. -/
theorem applyJitter_append_singleton (ch : CoordinateHelper) (g : ℕ → ℤ × ℤ)
    (l : List Point) (q : Point) :
    ∀ k, applyJitter ch g k (l ++ [q]) =
      applyJitter ch g k l ++
        [ch.offset_coordinates q.x q.y 2 (g (k + l.length)).1 (g (k + l.length)).2] := by
  induction l with
  | nil => intro k; simp [applyJitter]
  | cons r rs ih =>
    intro k
    simp only [List.cons_append, applyJitter, List.append_eq, ih (k + 1), List.length_cons]
    have h : k + 1 + rs.length = k + (rs.length + 1) := by omega
    rw [h]

/-- First element of a mapped range. -/
theorem head_map_range {α : Type} (f : ℕ → α) (n : ℕ) (h : n ≠ 0) :
    ((List.range n).map f).head? = some (f 0) := by
  cases n with
  | zero => exact absurd rfl h
  | succ m =>
    rw [List.range_succ_eq_map]
    simp

/-- Last element of a mapped range. -/
theorem getLast_map_range {α : Type} (f : ℕ → α) (n : ℕ) (h : n ≠ 0) :
    ((List.range n).map f).getLast? = some (f (n - 1)) := by
  cases n with
  | zero => exact absurd rfl h
  | succ m =>
    rw [List.range_succ]
    simp [List.getLast?_concat]

/-- With more than two steps the smooth path is the mapped Bezier
samples. -/
theorem generate_smooth_path_of_many_steps (ch : CoordinateHelper) (p e : Point)
    (steps : ℕ) (ci : ℚ) (s1 s2 : ℕ) (h : ¬ steps ≤ 2) :
    ch.generate_smooth_path p e steps ci s1 s2 =
      (List.range steps).map (bezierPoint ch p e (bezierControl p e ci s1 s2) steps) := by
  unfold CoordinateHelper.generate_smooth_path
  rw [if_neg h]

/-- The step count of the natural path is at least 5. -/
theorem naturalSteps_ge_five (p e : Point) : 5 ≤ naturalSteps p e :=
  le_max_left 5 _

/-- The length of the natural path is exactly the derived step count. -/
theorem generate_natural_path_length (ch : CoordinateHelper) (p e : Point)
    (hl : Bool) (s1 s2 : ℕ) (g : ℕ → ℤ × ℤ) :
    (ch.generate_natural_path p e hl s1 s2 g).length = naturalSteps p e := by
  have hgt : ¬ naturalSteps p e ≤ 2 := by
    have := naturalSteps_ge_five p e
    omega
  unfold CoordinateHelper.generate_natural_path
  rw [generate_smooth_path_of_many_steps ch p e _ _ s1 s2 hgt]
  cases hl with
  | false => simp
  | true =>
    simp only [if_true]
    rw [applyJitter_length]
    simp

/-- C5 (amended): for start and end points inside the screen plane, the
natural trajectory is a non-empty sequence of `max(5, ⌊distance⌋/15)`
points whose first and last points equal start and end exactly when
`human_like = false`, and lie within ±2 px of them per coordinate when
`human_like = true`; and for all endpoint pairs the sequence length is
monotonically non-decreasing in the start-end distance.  (Every sampled
point is clamped to the screen plane, so endpoints outside it are moved
in-bounds rather than reproduced.) -/
theorem natural_path_endpoints_and_length (ch : CoordinateHelper) (p e : Point)
    (human_like : Bool) (s1 s2 : ℕ) (g : ℕ → ℤ × ℤ)
    (hp : ch.validate_point p 0 = true) (he : ch.validate_point e 0 = true) :
    ch.generate_natural_path p e human_like s1 s2 g ≠ [] ∧
    (ch.generate_natural_path p e human_like s1 s2 g).length =
      max 5 (Nat.sqrt (p.sqDist e) / 15) ∧
    (human_like = false →
      (ch.generate_natural_path p e human_like s1 s2 g).head? = some p ∧
      (ch.generate_natural_path p e human_like s1 s2 g).getLast? = some e) ∧
    (human_like = true →
      (∃ q, (ch.generate_natural_path p e human_like s1 s2 g).head? = some q ∧
        p.x - 2 ≤ q.x ∧ q.x ≤ p.x + 2 ∧ p.y - 2 ≤ q.y ∧ q.y ≤ p.y + 2) ∧
      (∃ q, (ch.generate_natural_path p e human_like s1 s2 g).getLast? = some q ∧
        e.x - 2 ≤ q.x ∧ q.x ≤ e.x + 2 ∧ e.y - 2 ≤ q.y ∧ q.y ≤ e.y + 2)) ∧
    (∀ (p2 e2 : Point) (hl2 : Bool) (t1 t2 : ℕ) (g2 : ℕ → ℤ × ℤ),
      p.sqDist e ≤ p2.sqDist e2 →
      (ch.generate_natural_path p e human_like s1 s2 g).length ≤
        (ch.generate_natural_path p2 e2 hl2 t1 t2 g2).length) := by
  have h5 : 5 ≤ naturalSteps p e := naturalSteps_ge_five p e
  have hgt : ¬ naturalSteps p e ≤ 2 := by omega
  have hne : naturalSteps p e ≠ 0 := by omega
  have hsmooth := generate_smooth_path_of_many_steps ch p e (naturalSteps p e)
    (naturalCurve p e) s1 s2 hgt
  set c := bezierControl p e (naturalCurve p e) s1 s2 with hc
  set f := bezierPoint ch p e c (naturalSteps p e) with hfdef
  have hf0 : f 0 = p := by
    rw [hfdef, bezierPoint_zero]
    exact clamp_of_valid ch p.x p.y hp
  have hfl : f (naturalSteps p e - 1) = e := by
    rw [hfdef, bezierPoint_last ch p e c _ (by omega)]
    exact clamp_of_valid ch e.x e.y he
  have hmapne : (List.range (naturalSteps p e)).map f ≠ [] := by
    simp only [ne_eq, List.map_eq_nil_iff, List.range_eq_nil]
    exact hne
  have hpath_false : ch.generate_natural_path p e false s1 s2 g =
      (List.range (naturalSteps p e)).map f := by
    unfold CoordinateHelper.generate_natural_path
    rw [if_neg (by simp)]
    exact hsmooth
  have hpath_true : ch.generate_natural_path p e true s1 s2 g =
      applyJitter ch g 0 ((List.range (naturalSteps p e)).map f) := by
    unfold CoordinateHelper.generate_natural_path
    rw [if_pos rfl, hsmooth]
  refine ⟨?_, ?_, ?_, ?_, ?_⟩
  · intro hnil
    have := generate_natural_path_length ch p e human_like s1 s2 g
    rw [hnil] at this
    simp only [List.length_nil] at this
    omega
  · exact generate_natural_path_length ch p e human_like s1 s2 g
  · intro h
    subst h
    rw [hpath_false]
    exact ⟨by rw [head_map_range f _ hne, hf0], by rw [getLast_map_range f _ hne, hfl]⟩
  · intro h
    subst h
    rw [hpath_true]
    constructor
    · obtain ⟨a, t, hat⟩ := List.exists_cons_of_ne_nil hmapne
      have ha : a = p := by
        have h1 := head_map_range f _ hne
        rw [hat] at h1
        simp only [List.head?_cons, Option.some.injEq] at h1
        rw [h1, hf0]
      rw [hat, ha]
      refine ⟨ch.offset_coordinates p.x p.y 2 (g 0).1 (g 0).2, rfl, ?_⟩
      exact offset_coordinates_close ch p (g 0).1 (g 0).2 hp
    · rcases List.eq_nil_or_concat' ((List.range (naturalSteps p e)).map f) with
        hnil | ⟨l2, a, hcat⟩
      · exact absurd hnil hmapne
      · have ha : a = e := by
          have h1 := getLast_map_range f _ hne
          rw [hcat, List.getLast?_concat] at h1
          simp only [Option.some.injEq] at h1
          rw [h1, hfl]
        rw [hcat, ha, applyJitter_append_singleton, List.getLast?_concat]
        refine ⟨ch.offset_coordinates e.x e.y 2 (g (0 + l2.length)).1
          (g (0 + l2.length)).2, rfl, ?_⟩
        exact offset_coordinates_close ch e (g (0 + l2.length)).1 (g (0 + l2.length)).2 he
  · intro p2 e2 hl2 t1 t2 g2 hle
    rw [generate_natural_path_length, generate_natural_path_length]
    exact max_le_max le_rfl (Nat.div_le_div_right (Nat.sqrt_le_sqrt hle))

/-- Counterexample to C5 as stated: with `human_like = false` and the start
point (-100, 50) outside a 1920x1080 screen, the first point of the
returned trajectory is the clamped point (0, 50), not the requested start
point — the first/last-point property does not hold for every pair of
points. -/
theorem natural_path_offscreen_start_not_start :
    (CoordinateHelper.generate_natural_path { screen_width := 1920, screen_height := 1080 }
      { x := -100, y := 50 } { x := 100, y := 50 } false 0 0 (fun _ => (0, 0))).head? =
      some { x := 0, y := 50 } ∧
    ¬ ((CoordinateHelper.generate_natural_path { screen_width := 1920, screen_height := 1080 }
      { x := -100, y := 50 } { x := 100, y := 50 } false 0 0 (fun _ => (0, 0))).head? =
      some { x := -100, y := 50 }) := by
  have hsq : Point.sqDist { x := -100, y := 50 } { x := 100, y := 50 } = 40000 := by
    show ((-100 - 100 : ℤ) ^ 2 + (50 - 50 : ℤ) ^ 2).toNat = 40000
    norm_num
    rfl
  have hsqrt : Nat.sqrt 40000 = 200 :=
    (Nat.eq_sqrt.mpr ⟨by norm_num, by norm_num⟩).symm
  have hns : naturalSteps { x := -100, y := 50 } { x := 100, y := 50 } = 13 := by
    unfold naturalSteps
    rw [hsq, hsqrt]
    have hdiv : (200 : ℕ) / 15 = 13 := by norm_num
    rw [hdiv]
    exact max_eq_right (by norm_num)
  have hne : naturalSteps { x := -100, y := 50 } { x := 100, y := 50 } ≠ 0 := by
    rw [hns]
    norm_num
  have hgt : ¬ naturalSteps { x := -100, y := 50 } { x := 100, y := 50 } ≤ 2 := by
    rw [hns]
    norm_num
  have hpath : CoordinateHelper.generate_natural_path
      { screen_width := 1920, screen_height := 1080 }
      { x := -100, y := 50 } { x := 100, y := 50 } false 0 0 (fun _ => (0, 0)) =
      (List.range (naturalSteps { x := -100, y := 50 } { x := 100, y := 50 })).map
        (bezierPoint { screen_width := 1920, screen_height := 1080 }
          { x := -100, y := 50 } { x := 100, y := 50 }
          (bezierControl { x := -100, y := 50 } { x := 100, y := 50 }
            (naturalCurve { x := -100, y := 50 } { x := 100, y := 50 }) 0 0)
          (naturalSteps { x := -100, y := 50 } { x := 100, y := 50 })) := by
    unfold CoordinateHelper.generate_natural_path
    rw [if_neg (by simp)]
    exact generate_smooth_path_of_many_steps _ _ _ _ _ _ _ hgt
  have hhead := head_map_range
    (bezierPoint { screen_width := 1920, screen_height := 1080 }
      { x := -100, y := 50 } { x := 100, y := 50 }
      (bezierControl { x := -100, y := 50 } { x := 100, y := 50 }
        (naturalCurve { x := -100, y := 50 } { x := 100, y := 50 }) 0 0)
      (naturalSteps { x := -100, y := 50 } { x := 100, y := 50 })) _ hne
  rw [bezierPoint_zero] at hhead
  have hcl : CoordinateHelper.clamp_coordinates
      { screen_width := 1920, screen_height := 1080 } (-100) 50 0 = { x := 0, y := 50 } := by
    decide
  rw [hcl] at hhead
  constructor
  · rw [hpath]
    exact hhead
  · intro h
    rw [hpath, hhead] at h
    exact absurd h (by decide)

/-- Witness for C5 (amended) at concrete in-bounds endpoints. -/
theorem natural_path_endpoints_and_length_witness :
    (CoordinateHelper.generate_natural_path { screen_width := 1920, screen_height := 1080 }
      { x := 100, y := 100 } { x := 500, y := 400 } false 0 0 (fun _ => (0, 0))).head? =
      some { x := 100, y := 100 } :=
  ((natural_path_endpoints_and_length { screen_width := 1920, screen_height := 1080 }
    { x := 100, y := 100 } { x := 500, y := 400 } false 0 0 (fun _ => (0, 0))
    (by decide) (by decide)).2.2.1 rfl).1

/-- Witness for C8 (amended) at the constant failing backend. -/
theorem click_with_retry_all_fail_witness :
    click_with_retry (fun _ => false) 3 = (false, 3, [1, 3/2, 2]) :=
  click_with_retry_all_fail (fun _ => false) (fun _ => rfl)
